import Mathlib

/-
Verification of the resource and dependency tracking subsystem of pypeliner
(src/pypeliner/resources.py), embedded shallowly: the filesystem and the
process-wide stat cache are explicit state threaded through each operation,
Python exceptions become an `Option PypeErr` component of each result, and
pickled Python values become an inductive `PyVal` type.
-/

set_option autoImplicit false

namespace Pypeliner

/-! ### Association lists used for the filesystem, the stat cache and Python dicts -/

abbrev Filename := String

/-- First-match lookup in an association list keyed by strings. -/
def alookup {β : Type} : List (String × β) → String → Option β
  | [], _ => none
  | (k, v) :: rest, f => if k = f then some v else alookup rest f

/-- Remove every binding of a key from an association list. -/
def aerase {β : Type} : List (String × β) → String → List (String × β)
  | [], _ => []
  | (k, v) :: rest, f => if k = f then aerase rest f else (k, v) :: aerase rest f

/-- Overwrite the binding of a key in an association list. -/
def ainsert {β : Type} (l : List (String × β)) (f : String) (v : β) : List (String × β) :=
  (f, v) :: aerase l f

@[simp] theorem alookup_nil {β : Type} (f : String) : alookup ([] : List (String × β)) f = none := rfl

@[simp] theorem aerase_nil {β : Type} (f : String) : aerase ([] : List (String × β)) f = [] := rfl

theorem alookup_aerase {β : Type} (l : List (String × β)) (f g : String) :
    alookup (aerase l f) g = if f = g then none else alookup l g := by
  induction l with
  | nil => simp
  | cons p rest ih =>
    obtain ⟨k, v⟩ := p
    by_cases hkf : k = f
    · subst hkf
      rw [aerase, if_pos rfl, ih]
      by_cases hkg : k = g
      · simp [hkg]
      · simp [alookup, hkg]
    · rw [aerase, if_neg hkf, alookup]
      by_cases hkg : k = g
      · have hfg : ¬ f = g := fun h => hkf (h ▸ hkg)
        simp [alookup, hkg, hfg]
      · simp [alookup, hkg, ih]

theorem alookup_ainsert {β : Type} (l : List (String × β)) (f g : String) (v : β) :
    alookup (ainsert l f v) g = if f = g then some v else alookup l g := by
  by_cases hfg : f = g <;> simp [ainsert, alookup, hfg, alookup_aerase]

@[simp] theorem alookup_ainsert_self {β : Type} (l : List (String × β)) (f : String) (v : β) :
    alookup (ainsert l f v) f = some v := by simp [alookup_ainsert]

@[simp] theorem alookup_aerase_self {β : Type} (l : List (String × β)) (f : String) :
    alookup (aerase l f) f = none := by simp [alookup_aerase]

theorem alookup_ainsert_ne {β : Type} (l : List (String × β)) (f g : String) (v : β)
    (h : ¬ f = g) : alookup (ainsert l f v) g = alookup l g := by simp [alookup_ainsert, h]

theorem alookup_aerase_ne {β : Type} (l : List (String × β)) (f g : String)
    (h : ¬ f = g) : alookup (aerase l f) g = alookup l g := by simp [alookup_aerase, h]

/-! ### Python values and the pickle model

Serialized object content is modelled by storing the `PyVal` itself in the file:
`pickle.dump` writes the value, `pickle.load` returns it (an exact round trip for
picklable values). -/

/-- A small universe of Python runtime values sufficient for the claims:
`pynone` is `None`; `pyint`/`pystr` are primitives whose `__eq__` compares within
their own type and returns `NotImplemented` against other types; `pyobj cls attrs`
is a plain instance with an attribute `__dict__` and no user-defined `__eq__`;
`pytrueeq` is an instance of a class whose `__eq__` returns `True` for every
argument. -/
inductive PyVal where
  | pynone
  | pyint (n : Int)
  | pystr (s : String)
  | pyobj (cls : Nat) (attrs : List (String × Int))
  | pytrueeq (id : Nat)
deriving DecidableEq, Repr

/-- Outcome of evaluating `obj1.__eq__(obj2)` in Python: a boolean result,
`NotImplemented` (the method declines to compare), or an `AttributeError`
raised because no `__eq__` attribute exists (possible for old-style classes). -/
inductive EqOutcome where
  | val (b : Bool)
  | notImpl
  | attrErr
deriving DecidableEq, Repr

/-- Concrete type (class) of a value, as compared by `obj1.__class__ != obj2.__class__`. -/
def pyClass : PyVal → Nat
  | .pynone => 0
  | .pyint _ => 1
  | .pystr _ => 2
  | .pytrueeq _ => 3
  | .pyobj c _ => 4 + c

/-- `obj1.__eq__(obj2)`. `int`/`str` compare within their type and decline across
types; `None` is a singleton so `object.__eq__` gives `True` exactly against
`None`; a plain `pyobj` instance inherits `object.__eq__`, which compares by
identity — distinct instances give `NotImplemented` (instance identity is not
modelled, so this is the result used for every comparison); the `pytrueeq` class
defines `__eq__` returning `True` unconditionally. -/
def dunderEq : PyVal → PyVal → EqOutcome
  | .pyint m, .pyint n => .val (decide (m = n))
  | .pyint _, _ => .notImpl
  | .pystr s, .pystr t => .val (decide (s = t))
  | .pystr _, _ => .notImpl
  | .pynone, .pynone => .val true
  | .pynone, _ => .notImpl
  | .pyobj _ _, _ => .notImpl
  | .pytrueeq _, _ => .val true

/-- `obj.__dict__`, when the value has one (only plain instances do; accessing it
on the others raises `AttributeError`). -/
def attrsOf : PyVal → Option (List (String × Int))
  | .pyobj _ a => some a
  | _ => none

/-- Python `dict` equality: same keys, equal values, order-insensitive. -/
def pyDictEq (d1 d2 : List (String × Int)) : Bool :=
  d1.all (fun p => alookup d2 p.1 = some p.2) && d2.all (fun p => alookup d1 p.1 = some p.2)

/-- Python `==` (the full protocol): try `obj1.__eq__`, then the reflected
`obj2.__eq__`, then fall back to identity, approximated here by structural
equality. -/
def rawEq (o1 o2 : PyVal) : Bool :=
  match dunderEq o1 o2 with
  | .val b => b
  | _ =>
    match dunderEq o2 o1 with
    | .val b => b
    | _ => decide (o1 = o2)

/-! ### System state: filesystem, stat cache, clock -/

/-- Metadata and content of one file. `mtime` is the timestamp compared for
freshness; `content` is the pickled value for object slots (`pystr ""` stands
for the empty content written by `touch`). -/
structure FileInfo where
  mtime : Nat
  content : PyVal
deriving DecidableEq, Repr

/-- The observable state: the filesystem (filename to file), the process-wide
stat cache (filename to memoized stat result; `some none` records "observed
absent"), and a logical clock supplying fresh modification times. -/
structure Sys where
  fs : List (Filename × FileInfo)
  cache : List (Filename × Option FileInfo)
  clock : Nat
deriving Repr

/-- The exceptions crossing this subsystem's boundary. `osError` stands for the
`OSError`/`IOError` family raised by the modelled filesystem calls;
`outputMissing` is `OutputMissingException`; `valueError`/`keyError` are the
template-resolution errors; `touchMissing` is the bare `Exception` raised by
`touch` on a missing resource. -/
inductive PypeErr where
  | outputMissing (filename : Filename)
  | osError
  | touchMissing (msg : String)
  | valueError (msg : String)
  | keyError (key : String)
deriving DecidableEq, Repr

/-! ### The stat cache (pypeliner.fstatcache) -/

/-- Modelled from the spec: `pypeliner.fstatcache.invalidate_cached_state` — the
fstatcache module is not under src/; §4.1 specifies `invalidate(path)` clears
any memoized state for `path`. -/
def invalidate_cached_state (s : Sys) (f : Filename) : Sys :=
  { s with cache := aerase s.cache f }

/-- Modelled from the spec: the single stat underlying `get_exists` and
`get_createtime` — §4.1 requires at most one real stat syscall per path between
invalidations, so both queries share one memoized snapshot, created lazily on
first query. -/
def statPath (s : Sys) (f : Filename) : Option FileInfo × Sys :=
  match alookup s.cache f with
  | some e => (e, s)
  | none => (alookup s.fs f, { s with cache := ainsert s.cache f (alookup s.fs f) })

/-- Modelled from the spec: `pypeliner.fstatcache.get_exists` (§4.1,
`exists(path) -> bool`). -/
def get_exists (s : Sys) (f : Filename) : Bool × Sys :=
  let (e, s1) := statPath s f
  (e.isSome, s1)

/-- Modelled from the spec: `pypeliner.fstatcache.get_createtime` (§4.1,
`createtime(path) -> Timestamp | Absent`). -/
def get_createtime (s : Sys) (f : Filename) : Option Nat × Sys :=
  let (e, s1) := statPath s f
  (e.map FileInfo.mtime, s1)

/-! ### Modelled standard library and helper calls -/

/-- `os.rename(src, dst)`: atomic for same-volume paths — either the whole entry
moves to `dst`, or an `OSError` is raised (modelled as failing exactly when
`src` is absent) and the filesystem is unchanged. The cache is not touched. -/
def os_rename (s : Sys) (src dst : Filename) : Except PypeErr Sys :=
  match alookup s.fs src with
  | none => .error .osError
  | some info => .ok { s with fs := ainsert (aerase s.fs src) dst info }

/-- `os.remove(f)`: delete the file, raising `OSError` if it is absent. -/
def os_remove (s : Sys) (f : Filename) : Except PypeErr Sys :=
  match alookup s.fs f with
  | none => .error .osError
  | some _ => .ok { s with fs := aerase s.fs f }

/-- Modelled from the spec: `pypeliner.helpers.touch` — the helpers module is
not under src/; per §4.2/§4.5 `touch` marks a path freshly confirmed without
rewriting content: it creates the file when absent and sets its modification
time to now. -/
def helpers_touch (s : Sys) (f : Filename) : Sys :=
  let info : FileInfo :=
    match alookup s.fs f with
    | some i => { i with mtime := s.clock }
    | none => { mtime := s.clock, content := .pystr "" }
  { s with fs := ainsert s.fs f info, clock := s.clock + 1 }

/-- Modelled from the spec: `pypeliner.helpers.saferemove` — the helpers module
is not under src/; removes the file when present and does nothing when absent
(it is called where the path may not exist, so it must not raise). -/
def helpers_saferemove (s : Sys) (f : Filename) : Sys :=
  { s with fs := aerase s.fs f }

/-- `shutil.copystat(src, dst)`: copy filesystem metadata (the modelled part is
the modification time) from `src` onto `dst`; raises `OSError` when either path
is absent. -/
def shutil_copystat (s : Sys) (src dst : Filename) : Except PypeErr Sys :=
  match alookup s.fs src, alookup s.fs dst with
  | some si, some di => .ok { s with fs := ainsert s.fs dst { di with mtime := si.mtime } }
  | _, _ => .error .osError

/-- `open(f, 'wb')` followed by `pickle.dump(v, f)`: create or truncate the file
and store the serialized value, stamping the current time. -/
def fsWrite (s : Sys) (f : Filename) (v : PyVal) : Sys :=
  { s with fs := ainsert s.fs f { mtime := s.clock, content := v }, clock := s.clock + 1 }

/-! ### Filename resolution (template checking and Python str.format) -/

/-- A node: the ordered sequence of (axis, value) bindings. -/
abbrev PyNode := List (String × String)

/-- `needle` occurs as a contiguous run at the head of `hay`. -/
def listStartsWith : List Char → List Char → Bool
  | [], _ => true
  | _ :: _, [] => false
  | a :: as, b :: bs => a = b && listStartsWith as bs

/-- `needle` occurs as a contiguous run anywhere in `hay` (first argument is the
needle). -/
def listOccursIn : List Char → List Char → Bool
  | needle, [] => listStartsWith needle []
  | needle, c :: rest => listStartsWith needle (c :: rest) || listOccursIn needle rest

/-- Python's `needle in hay` on strings: substring containment. -/
def strContains (hay needle : String) : Bool :=
  listOccursIn needle.toList hay.toList

/-- `_check_template(template, node)` (resources.py:66): for each axis of the
node in order, raise `ValueError('filename template {} does not contain {{{}}}')`
when the axis name is not a substring of the template. -/
def check_template (template : String) (node : PyNode) : Option PypeErr :=
  match node.find? (fun p => ! strContains template p.1) with
  | some p =>
      some (.valueError
        ("filename template " ++ template ++ " does not contain \x7b" ++ p.1 ++ "\x7d"))
  | none => none

/-- One pass of Python `str.format` field substitution: plain `\x7bname\x7d`
fields only (no conversion or format specs appear in the templates of this
subsystem), `\x7b\x7b`/`\x7d\x7d` escapes, `KeyError(name)` when a field name is
missing from the keyword dict, `ValueError` on an unmatched single brace. -/
def formatChars (env : PyNode) : List Char → Except PypeErr (List Char)
  | [] => .ok []
  | '{' :: '{' :: rest => (formatChars env rest).map (fun t => '{' :: t)
  | '}' :: '}' :: rest => (formatChars env rest).map (fun t => '}' :: t)
  | '{' :: rest => formatField env rest []
  | '}' :: _ => .error (.valueError "Single brace encountered")
  | c :: rest => (formatChars env rest).map (fun t => c :: t)
where
  /-- Inside a replacement field: accumulate the field name up to `\x7d`. -/
  formatField (env : PyNode) : List Char → List Char → Except PypeErr (List Char)
    | [], _ => .error (.valueError "Single brace encountered")
    | '}' :: rest, acc =>
        match alookup env (String.mk acc.reverse) with
        | some v => (formatChars env rest).map (fun t => v.toList ++ t)
        | none => .error (.keyError (String.mk acc.reverse))
    | c :: rest, acc => formatField env rest (c :: acc)

/-- `template.format(**dict(node))`. -/
def pyFormat (template : String) (node : PyNode) : Except PypeErr String :=
  (formatChars node template.toList).map String.mk

/-- `resolve_user_filename(name, node, fnames, template)` (resources.py:72).
The `fnames` table is modelled with keys as lists of axis values (a single-axis
key is the singleton of its one value, matching `fnames.get(fname_key[0], name)`;
a multi-axis key is the whole tuple). -/
def resolve_user_filename (name : String) (node : PyNode)
    (fnames : Option (List (List String × String))) (template : Option String) :
    Except PypeErr String :=
  let fname_key : List String := node.map Prod.snd
  match fnames with
  | some table =>
      let key : List String :=
        match fname_key with
        | [v] => [v]
        | _ => fname_key
      .ok ((table.find? (fun p => p.1 = key)).map Prod.snd |>.getD name)
  | none =>
    match template with
    | some t =>
        match check_template t node with
        | some e => .error e
        | none => pyFormat t node
    | none =>
        match check_template name node with
        | some e => .error e
        | none =>
          match pyFormat name node with
          | .ok f => .ok f
          | .error (.keyError k) =>
              .error (.valueError ("template " ++ name ++ " contains " ++ k))
          | .error e => .error e

/-! ### UserResource -/

structure UserResource where
  name : String
  node : PyNode
  filename : Filename
deriving Repr

/-- `UserResource.__init__` (resources.py:94): store the fields and invalidate
the cached state of the tracked filename. -/
def UserResource.init (name : String) (node : PyNode) (filename : Filename) (s : Sys) :
    UserResource × Sys :=
  (⟨name, node, filename⟩, invalidate_cached_state s filename)

/-- `UserResource.exists` (resources.py:102). -/
def UserResource.existsQ (r : UserResource) (s : Sys) : Bool × Sys :=
  get_exists s r.filename

/-- `UserResource.createtime` (resources.py:105). -/
def UserResource.createtimeQ (r : UserResource) (s : Sys) : Option Nat × Sys :=
  get_createtime s r.filename

/-- `UserResource.touch` (resources.py:107): raise when the resource does not
exist, otherwise invalidate and touch the file. -/
def UserResource.touchR (r : UserResource) (s : Sys) : Sys × Option PypeErr :=
  let (ex, s1) := UserResource.existsQ r s
  if ex then
    (helpers_touch (invalidate_cached_state s1 r.filename) r.filename, none)
  else
    (s1, some (.touchMissing "cannot touch missing user output"))

/-- `UserResource.finalize` (resources.py:112): invalidate the cached state of
the final filename, then rename the staged file onto it; an `OSError` from the
rename becomes `OutputMissingException(write_filename)`. The returned state
keeps the effects performed before the exception (the invalidation). -/
def UserResource.finalizeR (r : UserResource) (write_filename : Filename) (s : Sys) :
    Sys × Option PypeErr :=
  let s1 := invalidate_cached_state s r.filename
  match os_rename s1 write_filename r.filename with
  | .ok s2 => (s2, none)
  | .error _ => (s1, some (.outputMissing write_filename))

/-! ### TempFileResource -/

structure TempFileResource where
  name : String
  node : PyNode
  filename : Filename
  placeholder_filename : Filename
deriving Repr

/-- `TempFileResource.__init__` (resources.py:122): the placeholder sidecar is
`filename + '._placeholder'`; both tracked filenames get their cached state
invalidated. -/
def TempFileResource.init (name : String) (node : PyNode) (filename : Filename) (s : Sys) :
    TempFileResource × Sys :=
  let r : TempFileResource := ⟨name, node, filename, filename ++ "._placeholder"⟩
  let s1 := invalidate_cached_state s r.filename
  (r, invalidate_cached_state s1 r.placeholder_filename)

/-- `TempFileResource._save_createtime` (resources.py:130): invalidate and
recreate the placeholder, then copy the primary's stat metadata onto it. -/
def TempFileResource.save_createtime (r : TempFileResource) (s : Sys) :
    Sys × Option PypeErr :=
  let s1 := invalidate_cached_state s r.placeholder_filename
  let s2 := helpers_saferemove s1 r.placeholder_filename
  let s3 := helpers_touch s2 r.placeholder_filename
  match shutil_copystat s3 r.filename r.placeholder_filename with
  | .ok s4 => (s4, none)
  | .error e => (s3, some e)

/-- `TempFileResource.exists` (resources.py:136). -/
def TempFileResource.existsQ (r : TempFileResource) (s : Sys) : Bool × Sys :=
  get_exists s r.filename

/-- `TempFileResource.createtime` (resources.py:139): primary's cached time when
the primary exists, else the placeholder's when it exists, else `None`. -/
def TempFileResource.createtimeQ (r : TempFileResource) (s : Sys) : Option Nat × Sys :=
  let (ex, s1) := get_exists s r.filename
  if ex then get_createtime s1 r.filename
  else
    let (exp, s2) := get_exists s1 r.placeholder_filename
    if exp then get_createtime s2 r.placeholder_filename
    else (none, s2)

/-- `TempFileResource.touch` (resources.py:144): when the primary exists,
invalidate and touch it then save its createtime onto the placeholder; when it
does not, invalidate and touch only the placeholder. -/
def TempFileResource.touchR (r : TempFileResource) (s : Sys) : Sys × Option PypeErr :=
  let (ex, s1) := TempFileResource.existsQ r s
  if ex then
    let s2 := invalidate_cached_state s1 r.filename
    let s3 := helpers_touch s2 r.filename
    TempFileResource.save_createtime r s3
  else
    let s2 := invalidate_cached_state s1 r.placeholder_filename
    (helpers_touch s2 r.placeholder_filename, none)

/-- `TempFileResource.finalize` (resources.py:152): same invalidate-then-rename
commit as `UserResource.finalize`, then save the createtime onto the
placeholder. -/
def TempFileResource.finalizeR (r : TempFileResource) (write_filename : Filename) (s : Sys) :
    Sys × Option PypeErr :=
  let s1 := invalidate_cached_state s r.filename
  match os_rename s1 write_filename r.filename with
  | .ok s2 => TempFileResource.save_createtime r s2
  | .error _ => (s1, some (.outputMissing write_filename))

/-- `TempFileResource.cleanup` (resources.py:159): when the primary exists (per
the cache), log, invalidate its cached state and remove it; the placeholder is
never touched. -/
def TempFileResource.cleanupR (r : TempFileResource) (s : Sys) : Sys × Option PypeErr :=
  let (ex, s1) := TempFileResource.existsQ r s
  if ex then
    let s2 := invalidate_cached_state s1 r.filename
    match os_remove s2 r.filename with
    | .ok s3 => (s3, none)
    | .error e => (s2, some e)
  else (s1, none)

/-! ### TempObjResource, obj_equal and TempObjManager -/

structure TempObjResource where
  name : String
  node : PyNode
  filename : Filename
  is_input : Bool
deriving Repr

/-- `TempObjResource.__init__` (resources.py:168): the tracked filename is
`filename + ('._i', '._o')[is_input]` — the pair is indexed by the boolean
(`False` selects index 0, `True` selects index 1), so `is_input=True` selects
the `'._o'` suffix and `is_input=False` selects `'._i'`. The cached state of
the tracked filename is invalidated. -/
def TempObjResource.init (name : String) (node : PyNode) (filename : Filename)
    (is_input : Bool) (s : Sys) : TempObjResource × Sys :=
  let r : TempObjResource :=
    ⟨name, node, filename ++ (if is_input then "._o" else "._i"), is_input⟩
  (r, invalidate_cached_state s r.filename)

/-- `TempObjResource.exists` (resources.py:176). -/
def TempObjResource.existsQ (r : TempObjResource) (s : Sys) : Bool × Sys :=
  get_exists s r.filename

/-- `TempObjResource.createtime` (resources.py:179). -/
def TempObjResource.createtimeQ (r : TempObjResource) (s : Sys) : Option Nat × Sys :=
  get_createtime s r.filename

/-- `obj_equal(obj1, obj2)` (resources.py:188): call `obj1.__eq__(obj2)` and
return its result unless it is `NotImplemented` (an `AttributeError` from the
attribute access is swallowed); then return `False` for values of different
concrete classes; then compare attribute dicts when both exist; finally fall
back to `obj1 == obj2`. -/
def obj_equal (o1 o2 : PyVal) : Bool :=
  match dunderEq o1 o2 with
  | .val b => b
  | _ =>
    if pyClass o1 ≠ pyClass o2 then false
    else
      match attrsOf o1, attrsOf o2 with
      | some d1, some d2 => pyDictEq d1 d2
      | _, _ => rawEq o1 o2

structure TempObjManager where
  name : String
  node : PyNode
  input : TempObjResource
  output : TempObjResource
deriving Repr

/-- `TempObjManager.__init__` (resources.py:206): build the input
(`is_input=True`) and output (`is_input=False`) slot resources. -/
def TempObjManager.init (name : String) (node : PyNode) (filename : Filename) (s : Sys) :
    TempObjManager × Sys :=
  let (inp, s1) := TempObjResource.init name node filename true s
  let (outp, s2) := TempObjResource.init name node filename false s1
  (⟨name, node, inp, outp⟩, s2)

/-- Outcome of `open(f, 'rb')` followed by `pickle.load(f)`: the loaded value,
or an `IOError` with an errno (errno 2 is ENOENT, raised when the file is
absent). -/
inductive OpenResult where
  | ok (v : PyVal)
  | ioError (errno : Nat)
deriving DecidableEq, Repr

/-- Open and unpickle `f` against the modelled filesystem, where the only
failure a filesystem state can produce is absence (ENOENT). -/
def openRead (s : Sys) (f : Filename) : OpenResult :=
  match alookup s.fs f with
  | some i => .ok i.content
  | none => .ioError 2

/-- The body of `TempObjManager.get_obj` (resources.py:211) over the outcome of
the open: return the unpickled value; on `IOError` run
`if e.errno == 2: pass` — neither branch re-raises, so every `IOError` is
swallowed and the function falls through to an implicit `return None`. -/
def get_obj_of : OpenResult → Except PypeErr PyVal
  | .ok v => .ok v
  | .ioError e => if e = 2 then .ok PyVal.pynone else .ok PyVal.pynone

/-- `TempObjManager.get_obj` (resources.py:211) as a pure read of the input
slot (the value component of `get_obj_of` on the open's outcome). -/
def TempObjManager.get_obj (m : TempObjManager) (s : Sys) : PyVal :=
  match alookup s.fs m.input.filename with
  | some i => i.content
  | none => PyVal.pynone

/-- `TempObjManager.finalize(obj)` (resources.py:218): pickle `obj` into the
output slot unconditionally; when `not self.input.exists or not
obj_equal(obj, self.get_obj())` (short-circuit: `get_obj` runs only when the
input exists, but it is a pure read), pickle `obj` into the input slot; then
invalidate both slots' cached state. -/
def TempObjManager.finalizeR (m : TempObjManager) (obj : PyVal) (s : Sys) : Sys :=
  let s1 := fsWrite s m.output.filename obj
  let (inExists, s2) := TempObjResource.existsQ m.input s1
  let s3 :=
    if !inExists || ! obj_equal obj (TempObjManager.get_obj m s2) then
      fsWrite s2 m.input.filename obj
    else s2
  let s4 := invalidate_cached_state s3 m.input.filename
  invalidate_cached_state s4 m.output.filename

/-- The three-tier comparison as the specification words it, for comparison
against `obj_equal`: (a) the value's own equality operation when it does not
decline; (b) structural field-by-field content for values of the same concrete
type (falling back to raw equality when a side has no attribute dict, which the
spec leaves unsaid); (c) raw equality for values of different types. -/
def spec_obj_equal (o1 o2 : PyVal) : Bool :=
  match dunderEq o1 o2 with
  | .val b => b
  | _ =>
    if pyClass o1 = pyClass o2 then
      match attrsOf o1, attrsOf o2 with
      | some d1, some d2 => pyDictEq d1 d2
      | _, _ => rawEq o1 o2
    else rawEq o1 o2

/-- An empty system state used by concrete witnesses. -/
def sysEmpty : Sys := ⟨[], [], 0⟩

/-! ### Helper lemmas: strings, state projections, the stat cache -/

theorem str_ne_append (a suf : String) (h : suf.length ≠ 0) : a ≠ a ++ suf := by
  intro he
  have hl : a.length = a.length + suf.length := by
    conv_lhs => rw [he]
    exact String.length_append a suf
  omega

theorem str_append_ne (a suf : String) (h : suf.length ≠ 0) : a ++ suf ≠ a :=
  fun he => str_ne_append a suf h he.symm

theorem str_append_right_inj {a b c : String} (h : a ++ b = a ++ c) : b = c := by
  have hd := congrArg String.data h
  simp at hd
  exact String.ext hd

theorem str_append_ne_of_ne (a : String) {b c : String} (h : b ≠ c) : a ++ b ≠ a ++ c :=
  fun he => h (str_append_right_inj he)

@[simp] theorem invalidate_fs (s : Sys) (f : Filename) :
    (invalidate_cached_state s f).fs = s.fs := rfl

@[simp] theorem invalidate_cache (s : Sys) (f : Filename) :
    (invalidate_cached_state s f).cache = aerase s.cache f := rfl

@[simp] theorem invalidate_clock (s : Sys) (f : Filename) :
    (invalidate_cached_state s f).clock = s.clock := rfl

@[simp] theorem helpers_touch_cache (s : Sys) (f : Filename) :
    (helpers_touch s f).cache = s.cache := rfl

@[simp] theorem helpers_touch_clock (s : Sys) (f : Filename) :
    (helpers_touch s f).clock = s.clock + 1 := rfl

theorem helpers_touch_fs (s : Sys) (f : Filename) :
    (helpers_touch s f).fs = ainsert s.fs f
      (match alookup s.fs f with
       | some i => { i with mtime := s.clock }
       | none => { mtime := s.clock, content := .pystr "" }) := rfl

@[simp] theorem helpers_saferemove_fs (s : Sys) (f : Filename) :
    (helpers_saferemove s f).fs = aerase s.fs f := rfl

@[simp] theorem helpers_saferemove_cache (s : Sys) (f : Filename) :
    (helpers_saferemove s f).cache = s.cache := rfl

@[simp] theorem helpers_saferemove_clock (s : Sys) (f : Filename) :
    (helpers_saferemove s f).clock = s.clock := rfl

@[simp] theorem fsWrite_fs (s : Sys) (f : Filename) (v : PyVal) :
    (fsWrite s f v).fs = ainsert s.fs f { mtime := s.clock, content := v } := rfl

@[simp] theorem fsWrite_cache (s : Sys) (f : Filename) (v : PyVal) :
    (fsWrite s f v).cache = s.cache := rfl

@[simp] theorem fsWrite_clock (s : Sys) (f : Filename) (v : PyVal) :
    (fsWrite s f v).clock = s.clock + 1 := rfl

theorem statPath_fs (s : Sys) (f : Filename) : (statPath s f).2.fs = s.fs := by
  unfold statPath
  cases h : alookup s.cache f <;> simp

theorem statPath_clock (s : Sys) (f : Filename) : (statPath s f).2.clock = s.clock := by
  unfold statPath
  cases h : alookup s.cache f <;> simp

theorem statPath_cache_none {s : Sys} {f : Filename} (h : alookup s.cache f = none) :
    statPath s f = (alookup s.fs f, { s with cache := ainsert s.cache f (alookup s.fs f) }) := by
  unfold statPath
  rw [h]

theorem statPath_cache_some {s : Sys} {f : Filename} {e : Option FileInfo}
    (h : alookup s.cache f = some e) : statPath s f = (e, s) := by
  unfold statPath
  rw [h]

theorem get_exists_eq (s : Sys) (f : Filename) :
    get_exists s f = ((statPath s f).1.isSome, (statPath s f).2) := by
  unfold get_exists
  rcases h : statPath s f with ⟨e, s1⟩
  simp

theorem get_createtime_eq (s : Sys) (f : Filename) :
    get_createtime s f = ((statPath s f).1.map FileInfo.mtime, (statPath s f).2) := by
  unfold get_createtime
  rcases h : statPath s f with ⟨e, s1⟩
  simp

/-! ### Claim C7 -/

/-- C7 (counterexample): at tracked filename "f", the placeholder sidecar
filename is "f._placeholder", not "f" with ".placeholder" appended; and the
input (accepted) slot of a temp-object manager is "f._o", not "f" with "._i"
appended (the output slot correspondingly gets "._i"). -/
theorem c7_sidecar_suffix_counterexample :
    (TempFileResource.init "n" [] "f" sysEmpty).1.placeholder_filename = "f._placeholder" ∧
    "f._placeholder" ≠ "f" ++ ".placeholder" ∧
    (TempObjManager.init "n" [] "f" sysEmpty).1.input.filename = "f._o" ∧
    "f._o" ≠ "f" ++ "._i" ∧
    (TempObjManager.init "n" [] "f" sysEmpty).1.output.filename = "f._i" :=
  ⟨rfl, by decide, rfl, by decide, rfl⟩

/-- C7 (amended): for every tracked filename, the placeholder sidecar filename
is the filename with the literal suffix "._placeholder" appended, and the
temp-object slot filenames carry the literal suffix "._o" for the input
(accepted) slot and "._i" for the output (most-recent) slot. -/
theorem c7_sidecar_suffix_amended (name : String) (node : PyNode) (f : Filename) (s : Sys) :
    (TempFileResource.init name node f s).1.placeholder_filename = f ++ "._placeholder" ∧
    (TempObjManager.init name node f s).1.input.filename = f ++ "._o" ∧
    (TempObjManager.init name node f s).1.output.filename = f ++ "._i" :=
  ⟨rfl, rfl, rfl⟩

/-! ### Claim C5 -/

/-- C5 (counterexample): with node bound on axis `sample`, the explicit template
"sample.txt" omits the `\x7bsample\x7d` placeholder yet resolution succeeds
without any error, because the omitted-axis check is substring containment and
the axis name occurs as plain text; and the explicit template
"\x7bsample\x7d/\x7bchunk\x7d.txt" with the node missing axis `chunk` raises a
raw `KeyError`, not the distinguishable configuration error (`ValueError`) the
claim requires. -/
theorem c5_resolve_counterexample :
    resolve_user_filename "n" [("sample", "s1")] none (some "sample.txt") = .ok "sample.txt" ∧
    resolve_user_filename "n" [("sample", "s1")] none (some "\x7bsample\x7d/\x7bchunk\x7d.txt")
      = .error (.keyError "chunk") :=
  ⟨rfl, rfl⟩

/-- C5 (amended): the template branch raises the `ValueError` configuration
error exactly when some axis of the node does not occur as a substring of the
template (so a placeholder-omitting template whose text contains the axis name
escapes detection); when every axis occurs as a substring the result is that of
Python format substitution, whose `KeyError` for a placeholder not bound in the
node propagates raw from the template branch; the bare-name branch converts
that `KeyError` into a `ValueError` naming the offending key. -/
theorem c5_resolve_amended (name t : String) (node : PyNode) :
    ((∃ p ∈ node, strContains t p.1 = false) →
      ∃ msg, resolve_user_filename name node none (some t) = .error (.valueError msg)) ∧
    ((∀ p ∈ node, strContains t p.1 = true) →
      resolve_user_filename name node none (some t) = pyFormat t node) ∧
    (∀ k, (∀ p ∈ node, strContains name p.1 = true) →
      pyFormat name node = .error (.keyError k) →
      resolve_user_filename name node none none =
        .error (.valueError ("template " ++ name ++ " contains " ++ k))) := by
  refine ⟨?_, ?_, ?_⟩
  · rintro ⟨p, hp, hc⟩
    have hfind : (node.find? (fun q => ! strContains t q.1)).isSome := by
      rw [List.find?_isSome]
      exact ⟨p, hp, by simp [hc]⟩
    rcases Option.isSome_iff_exists.mp hfind with ⟨q, hq⟩
    refine ⟨"filename template " ++ t ++ " does not contain \x7b" ++ q.1 ++ "\x7d", ?_⟩
    simp [resolve_user_filename, check_template, hq]
  · intro hall
    have hfind : node.find? (fun q => ! strContains t q.1) = none := by
      rw [List.find?_eq_none]
      intro q hq
      simp [hall q hq]
    simp [resolve_user_filename, check_template, hfind]
  · intro k hall hfmt
    have hfind : node.find? (fun q => ! strContains name q.1) = none := by
      rw [List.find?_eq_none]
      intro q hq
      simp [hall q hq]
    simp [resolve_user_filename, check_template, hfind, hfmt]

/-- C5 (witness for the amended theorem): axis `chunk` does not occur in
"out.txt", so the template branch raises the `ValueError`. -/
theorem c5_resolve_amended_witness :
    ∃ msg, resolve_user_filename "n" [("chunk", "c1")] none (some "out.txt")
      = .error (.valueError msg) :=
  (c5_resolve_amended "n" "out.txt" [("chunk", "c1")]).1
    ⟨("chunk", "c1"), by simp, by decide⟩

/-! ### Claim C8 -/

/-- C8 (counterexample): for `1` (an `int`) against an instance of a class
whose `__eq__` always answers `True`, tier (a) declines (`int.__eq__` returns
`NotImplemented`), raw equality (`==`, via the reflected `__eq__`) is `True`,
so the claimed tier (c) demands `True` — but `obj_equal` short-circuits values
of different concrete types to `False` without ever reaching raw equality. -/
theorem c8_obj_equal_counterexample :
    dunderEq (.pyint 1) (.pytrueeq 0) = .notImpl ∧
    rawEq (.pyint 1) (.pytrueeq 0) = true ∧
    spec_obj_equal (.pyint 1) (.pytrueeq 0) = true ∧
    obj_equal (.pyint 1) (.pytrueeq 0) = false := by
  decide

/-- C8 (amended): the comparison follows three tiers: (a) if the value's own
equality operation does not decline, its result is returned ("declined" is
never collapsed with "false" — a declined comparison falls through rather than
answering); (b) otherwise values of different concrete types compare `False`
(raw equality is never consulted across types); (c) otherwise (same type) the
attribute dictionaries are compared when both sides have them, with raw
equality as the remaining fallback. -/
theorem c8_obj_equal_amended (o1 o2 : PyVal) :
    (∀ b, dunderEq o1 o2 = .val b → obj_equal o1 o2 = b) ∧
    ((∀ b, dunderEq o1 o2 ≠ .val b) →
      (pyClass o1 ≠ pyClass o2 → obj_equal o1 o2 = false) ∧
      (pyClass o1 = pyClass o2 →
        (∀ d1 d2, attrsOf o1 = some d1 → attrsOf o2 = some d2 →
          obj_equal o1 o2 = pyDictEq d1 d2) ∧
        ((attrsOf o1 = none ∨ attrsOf o2 = none) → obj_equal o1 o2 = rawEq o1 o2))) := by
  constructor
  · intro b hb
    unfold obj_equal
    rw [hb]
  · intro hdecl
    have hd : dunderEq o1 o2 = .notImpl ∨ dunderEq o1 o2 = .attrErr := by
      cases h : dunderEq o1 o2 with
      | val b => exact absurd h (hdecl b)
      | notImpl => exact .inl rfl
      | attrErr => exact .inr rfl
    have hstep : obj_equal o1 o2 =
        (if pyClass o1 ≠ pyClass o2 then false
         else match attrsOf o1, attrsOf o2 with
           | some d1, some d2 => pyDictEq d1 d2
           | _, _ => rawEq o1 o2) := by
      unfold obj_equal
      rcases hd with h | h <;> rw [h]
    constructor
    · intro hne
      rw [hstep, if_pos hne]
    · intro heq
      rw [hstep, if_neg (by simp [heq])]
      constructor
      · intro d1 d2 h1 h2
        rw [h1, h2]
      · rintro (h | h)
        · rw [h]
        · rw [h]; cases h1 : attrsOf o1 <;> rfl

/-- C8 (witness for the amended theorem): `3` and `"a"` have different concrete
types and `int.__eq__` declines against a string, so the result is `False`. -/
theorem c8_obj_equal_amended_witness :
    obj_equal (.pyint 3) (.pystr "a") = false :=
  ((c8_obj_equal_amended (.pyint 3) (.pystr "a")).2 (by decide)).1 (by decide)

/-! ### Claim C6 -/

/-- C6: evaluation of `get_obj`'s exception handling at the failing input: the
`except IOError` handler's `if e.errno == 2: pass` re-raises in neither branch,
so every `IOError` — in particular a permission error with errno 13, not only
ENOENT (errno 2) — is swallowed and the call returns `None` instead of
propagating the error. -/
theorem c6_get_obj_swallows_every_ioerror :
    get_obj_of (.ioError 13) = .ok PyVal.pynone ∧
    get_obj_of (.ioError 2) = .ok PyVal.pynone ∧
    (∀ errno : Nat, get_obj_of (.ioError errno) = .ok PyVal.pynone) ∧
    (∀ v : PyVal, get_obj_of (.ok v) = .ok v) := by
  refine ⟨rfl, rfl, fun errno => ?_, fun v => rfl⟩
  by_cases h : errno = 2 <;> simp [get_obj_of, h]


/-- `TempFileResource.createtime` resolved against the real filesystem when
neither tracked path has a stale cache entry: the primary's time when the
primary exists, else the placeholder's when it exists, else `None`. -/
theorem createtimeQ_of_fresh_cache (r : TempFileResource) (s : Sys)
    (h1 : alookup s.cache r.filename = none)
    (h2 : alookup s.cache r.placeholder_filename = none) :
    (TempFileResource.createtimeQ r s).1 =
      match alookup s.fs r.filename with
      | some i => some i.mtime
      | none => (alookup s.fs r.placeholder_filename).map FileInfo.mtime := by
  by_cases hpe : r.placeholder_filename = r.filename
  · cases hf : alookup s.fs r.filename <;>
      simp [TempFileResource.createtimeQ, get_exists, get_createtime, statPath,
        h1, h2, hf, hpe, alookup_ainsert]
  · have hpe1 : ¬ r.filename = r.placeholder_filename := fun h => hpe h.symm
    cases hf : alookup s.fs r.filename with
    | some i =>
        simp [TempFileResource.createtimeQ, get_exists, get_createtime, statPath,
          h1, hf, alookup_ainsert]
    | none =>
        cases hp : alookup s.fs r.placeholder_filename <;>
          simp [TempFileResource.createtimeQ, get_exists, get_createtime, statPath,
            h1, h2, hf, hp, hpe1, alookup_ainsert]

/-! ### Claim C9 -/

/-- C9: each file-backed resource constructor invalidates the stat-cache entry
of every filename it tracks (`UserResource` its filename, `TempFileResource`
its filename and its placeholder, `TempObjResource` its slot filename), so the
first `exists`/`createtime` query on a freshly constructed resource reads the
real filesystem rather than any stale cache entry carried in from before. -/
theorem c9_constructors_invalidate (name : String) (node : PyNode) (f : Filename) (s : Sys) :
    ((UserResource.existsQ (UserResource.init name node f s).1
        (UserResource.init name node f s).2).1 = (alookup s.fs f).isSome) ∧
    ((UserResource.createtimeQ (UserResource.init name node f s).1
        (UserResource.init name node f s).2).1 = (alookup s.fs f).map FileInfo.mtime) ∧
    (alookup (TempFileResource.init name node f s).2.cache
        (TempFileResource.init name node f s).1.filename = none) ∧
    (alookup (TempFileResource.init name node f s).2.cache
        (TempFileResource.init name node f s).1.placeholder_filename = none) ∧
    ((TempFileResource.existsQ (TempFileResource.init name node f s).1
        (TempFileResource.init name node f s).2).1 = (alookup s.fs f).isSome) ∧
    ((TempFileResource.createtimeQ (TempFileResource.init name node f s).1
        (TempFileResource.init name node f s).2).1 =
      match alookup s.fs f with
      | some i => some i.mtime
      | none => (alookup s.fs (f ++ "._placeholder")).map FileInfo.mtime) ∧
    (∀ isInp : Bool,
      (TempObjResource.existsQ (TempObjResource.init name node f isInp s).1
          (TempObjResource.init name node f isInp s).2).1
        = (alookup s.fs ((TempObjResource.init name node f isInp s).1.filename)).isSome) ∧
    (∀ isInp : Bool,
      (TempObjResource.createtimeQ (TempObjResource.init name node f isInp s).1
          (TempObjResource.init name node f isInp s).2).1
        = (alookup s.fs ((TempObjResource.init name node f isInp s).1.filename)).map
            FileInfo.mtime) := by
  refine ⟨?_, ?_, ?_, ?_, ?_, ?_, ?_, ?_⟩
  · simp only [UserResource.init, UserResource.existsQ]
    rw [get_exists_eq, statPath_cache_none (by simp)]
    simp
  · simp only [UserResource.init, UserResource.createtimeQ]
    rw [get_createtime_eq, statPath_cache_none (by simp)]
    simp
  · simp [TempFileResource.init, alookup_aerase]
  · simp [TempFileResource.init, alookup_aerase]
  · simp only [TempFileResource.init, TempFileResource.existsQ]
    rw [get_exists_eq, statPath_cache_none (by simp [alookup_aerase])]
    simp
  · have h := createtimeQ_of_fresh_cache (TempFileResource.init name node f s).1
      (TempFileResource.init name node f s).2
      (by simp [TempFileResource.init, alookup_aerase])
      (by simp [TempFileResource.init, alookup_aerase])
    simpa [TempFileResource.init] using h
  · intro isInp
    simp only [TempObjResource.init, TempObjResource.existsQ]
    rw [get_exists_eq, statPath_cache_none (by simp)]
    simp
  · intro isInp
    simp only [TempObjResource.init, TempObjResource.createtimeQ]
    rw [get_createtime_eq, statPath_cache_none (by simp)]
    simp

/-! ### Claim C4 -/

/-- C4: `TempFileResource.createtime` returns the primary file's timestamp when
the primary exists, else the placeholder's timestamp when the placeholder
exists, else the absent sentinel (`None`) — stated against the real filesystem
under the invariant that neither tracked path has a stale cache entry. -/
theorem c4_tempfile_createtime (r : TempFileResource) (s : Sys)
    (h1 : alookup s.cache r.filename = none)
    (h2 : alookup s.cache r.placeholder_filename = none) :
    (TempFileResource.createtimeQ r s).1 =
      match alookup s.fs r.filename with
      | some i => some i.mtime
      | none => (alookup s.fs r.placeholder_filename).map FileInfo.mtime :=
  createtimeQ_of_fresh_cache r s h1 h2

/-- C4 (witness): a system whose primary file is absent but whose placeholder
was stamped at time 5 reports createtime 5. -/
theorem c4_tempfile_createtime_witness :
    (TempFileResource.createtimeQ ⟨"n", [], "f", "f._placeholder"⟩
      ⟨[("f._placeholder", ⟨5, .pystr ""⟩)], [], 9⟩).1 = some 5 := by
  simpa using c4_tempfile_createtime ⟨"n", [], "f", "f._placeholder"⟩
    ⟨[("f._placeholder", ⟨5, .pystr ""⟩)], [], 9⟩ rfl rfl

/-! ### Claim C1 -/

/-- C1: `UserResource.finalize(stagingPath)` invalidates the stat-cache entry
of the final filename (it is absent from the cache afterwards in every
outcome) and renames the staged file onto the final filename; when the staged
file does not exist the rename fails and `OutputMissingException(stagingPath)`
is raised with the filesystem — in particular the final file's prior state —
left entirely unchanged; when the staged file exists the commit succeeds and
the final filename holds exactly the staged file's content. -/
theorem c1_user_finalize_atomic (r : UserResource) (wf : Filename) (s : Sys) :
    (alookup (UserResource.finalizeR r wf s).1.cache r.filename = none) ∧
    (alookup s.fs wf = none →
      (UserResource.finalizeR r wf s).2 = some (.outputMissing wf) ∧
      (UserResource.finalizeR r wf s).1.fs = s.fs) ∧
    (∀ info, alookup s.fs wf = some info →
      (UserResource.finalizeR r wf s).2 = none ∧
      alookup (UserResource.finalizeR r wf s).1.fs r.filename = some info) := by
  refine ⟨?_, ?_, ?_⟩
  · cases hw : alookup s.fs wf <;> simp [UserResource.finalizeR, os_rename, hw]
  · intro hw
    constructor <;> simp [UserResource.finalizeR, os_rename, hw]
  · intro info hw
    constructor <;> simp [UserResource.finalizeR, os_rename, hw]

/-- C1 (witness): finalizing from a missing staging path "stage" raises
`OutputMissingException("stage")` and leaves the filesystem unchanged. -/
theorem c1_user_finalize_atomic_witness :
    (UserResource.finalizeR ⟨"n", [], "out"⟩ "stage"
        ⟨[("out", ⟨3, .pystr "old"⟩)], [], 7⟩).2 = some (.outputMissing "stage") ∧
    (UserResource.finalizeR ⟨"n", [], "out"⟩ "stage"
        ⟨[("out", ⟨3, .pystr "old"⟩)], [], 7⟩).1.fs = [("out", ⟨3, .pystr "old"⟩)] :=
  (c1_user_finalize_atomic ⟨"n", [], "out"⟩ "stage"
    ⟨[("out", ⟨3, .pystr "old"⟩)], [], 7⟩).2.1 rfl

/-! ### Claim C10 -/

/-- C10: `get_obj` returns the sentinel `None` both when the input slot file is
absent and when the slot stores a pickled `None`, so "never produced" and
"legitimately produced None" are indistinguishable to the caller; and reading
the input slot after `finalize(v)` yields exactly `v` whenever the finalize
wrote the slot, the only other case being a prior stored value that
`obj_equal`-compares equal to `v` and is left in place. -/
theorem c10_get_obj_none_collapse (m : TempObjManager) (v : PyVal) (s : Sys)
    (hne : m.input.filename ≠ m.output.filename)
    (hc : alookup s.cache m.input.filename = none) :
    (alookup s.fs m.input.filename = none →
      TempObjManager.get_obj m s = PyVal.pynone) ∧
    (∀ i, alookup s.fs m.input.filename = some i → i.content = PyVal.pynone →
      TempObjManager.get_obj m s = PyVal.pynone) ∧
    (TempObjManager.get_obj m (TempObjManager.finalizeR m v s) = v ∨
      (obj_equal v (TempObjManager.get_obj m s) = true ∧
        TempObjManager.get_obj m (TempObjManager.finalizeR m v s)
          = TempObjManager.get_obj m s)) := by
  have hne2 : ¬ m.output.filename = m.input.filename := fun h => hne h.symm
  refine ⟨?_, ?_, ?_⟩
  · intro h
    simp [TempObjManager.get_obj, h]
  · intro i h hcnt
    simp [TempObjManager.get_obj, h, hcnt]
  · cases hf : alookup s.fs m.input.filename with
    | none =>
        left
        simp [TempObjManager.finalizeR, TempObjResource.existsQ, get_exists, statPath,
          TempObjManager.get_obj, hc, hf, alookup_ainsert, hne2]
    | some i =>
        by_cases he : obj_equal v i.content = true
        · right
          refine ⟨by simp [TempObjManager.get_obj, hf, he], ?_⟩
          simp [TempObjManager.finalizeR, TempObjResource.existsQ, get_exists, statPath,
            TempObjManager.get_obj, hc, hf, alookup_ainsert, hne2, he]
        · left
          simp [TempObjManager.finalizeR, TempObjResource.existsQ, get_exists, statPath,
            TempObjManager.get_obj, hc, hf, alookup_ainsert, hne2, he]

/-- C10 (witness): on an empty filesystem the input slot is absent, so the
finalize writes it and the subsequent read returns the value. -/
theorem c10_get_obj_none_collapse_witness :
    TempObjManager.get_obj (TempObjManager.init "n" [] "f" sysEmpty).1
      (TempObjManager.finalizeR (TempObjManager.init "n" [] "f" sysEmpty).1 (.pyint 1)
        (TempObjManager.init "n" [] "f" sysEmpty).2) = .pyint 1 := by
  rcases (c10_get_obj_none_collapse (TempObjManager.init "n" [] "f" sysEmpty).1 (.pyint 1)
      (TempObjManager.init "n" [] "f" sysEmpty).2 (by decide) rfl).2.2 with h | h
  · exact h
  · exact absurd h.1 (by decide)

/-! ### Claim C2 -/

/-- C2: `TempObjManager.finalize(value)` rewrites the output slot with the
serialized value unconditionally; it rewrites the input slot exactly when the
slot was absent or its stored value compares different under the three-tier
`obj_equal`; when the comparison says equal, the input slot file is left
byte-for-byte and timestamp untouched; and both slots' stat-cache entries are
invalidated (unconditionally, hence in particular when the input slot was
overwritten). Stated under the invariant that the input slot has no stale
cache entry. -/
theorem c2_tempobj_finalize (m : TempObjManager) (v : PyVal) (s : Sys)
    (hne : m.input.filename ≠ m.output.filename)
    (hc : alookup s.cache m.input.filename = none) :
    (∃ t, alookup (TempObjManager.finalizeR m v s).fs m.output.filename
        = some ⟨t, v⟩) ∧
    (alookup s.fs m.input.filename = none →
      ∃ t, alookup (TempObjManager.finalizeR m v s).fs m.input.filename = some ⟨t, v⟩) ∧
    (∀ i, alookup s.fs m.input.filename = some i → obj_equal v i.content = false →
      ∃ t, alookup (TempObjManager.finalizeR m v s).fs m.input.filename = some ⟨t, v⟩) ∧
    (∀ i, alookup s.fs m.input.filename = some i → obj_equal v i.content = true →
      alookup (TempObjManager.finalizeR m v s).fs m.input.filename = some i) ∧
    (alookup (TempObjManager.finalizeR m v s).cache m.input.filename = none) ∧
    (alookup (TempObjManager.finalizeR m v s).cache m.output.filename = none) := by
  have hne2 : ¬ m.output.filename = m.input.filename := fun h => hne h.symm
  refine ⟨?_, ?_, ?_, ?_, ?_, ?_⟩
  · cases hf : alookup s.fs m.input.filename with
    | none =>
        refine ⟨s.clock, ?_⟩
        simp [TempObjManager.finalizeR, TempObjResource.existsQ, get_exists, statPath,
          TempObjManager.get_obj, hc, hf, alookup_ainsert, hne2, hne]
    | some i =>
        by_cases he : obj_equal v i.content = true
        · refine ⟨s.clock, ?_⟩
          simp [TempObjManager.finalizeR, TempObjResource.existsQ, get_exists, statPath,
            TempObjManager.get_obj, hc, hf, alookup_ainsert, hne2, hne, he]
        · refine ⟨s.clock, ?_⟩
          simp [TempObjManager.finalizeR, TempObjResource.existsQ, get_exists, statPath,
            TempObjManager.get_obj, hc, hf, alookup_ainsert, hne2, hne, he]
  · intro hf
    refine ⟨s.clock + 1, ?_⟩
    simp [TempObjManager.finalizeR, TempObjResource.existsQ, get_exists, statPath,
      TempObjManager.get_obj, hc, hf, alookup_ainsert, hne2]
  · intro i hf he
    refine ⟨s.clock + 1, ?_⟩
    simp [TempObjManager.finalizeR, TempObjResource.existsQ, get_exists, statPath,
      TempObjManager.get_obj, hc, hf, alookup_ainsert, hne2, he]
  · intro i hf he
    simp [TempObjManager.finalizeR, TempObjResource.existsQ, get_exists, statPath,
      TempObjManager.get_obj, hc, hf, alookup_ainsert, hne2, he]
  · simp [TempObjManager.finalizeR, alookup_aerase]
  · simp [TempObjManager.finalizeR, alookup_aerase]

/-- C2 (witness): the input slot stores `None`, the new value `2` compares
different, so the input slot is overwritten with the new serialized value. -/
theorem c2_tempobj_finalize_witness :
    ∃ t, alookup (TempObjManager.finalizeR
        ⟨"n", [], ⟨"n", [], "f._o", true⟩, ⟨"n", [], "f._i", false⟩⟩ (.pyint 2)
        ⟨[("f._o", ⟨0, .pynone⟩)], [], 1⟩).fs "f._o" = some ⟨t, .pyint 2⟩ :=
  (c2_tempobj_finalize ⟨"n", [], ⟨"n", [], "f._o", true⟩, ⟨"n", [], "f._i", false⟩⟩
      (.pyint 2) ⟨[("f._o", ⟨0, .pynone⟩)], [], 1⟩ (by decide) rfl).2.2.1
    ⟨0, .pynone⟩ rfl (by decide)

/-! ### Claim C3 -/

/-- C3: `TempFileResource.cleanup` deletes the primary file (and reports no
error) only when it exists, never deletes or modifies the placeholder in any
state; consequently, starting from a freshly constructed resource (placeholder
suffix and invalidated cache entries as established by the constructor), after
`touch()` — with the primary present or absent — or `finalize()` followed by
`cleanup()`, `exists()` returns false while `createtime()` still returns the
placeholder's time rather than the absent sentinel. -/
theorem c3_tempfile_cleanup (r : TempFileResource) (wf : Filename) (s : Sys)
    (hr : r.placeholder_filename = r.filename ++ "._placeholder")
    (hcf : alookup s.cache r.filename = none) :
    (∀ s1 : Sys, alookup (TempFileResource.cleanupR r s1).1.fs r.placeholder_filename
        = alookup s1.fs r.placeholder_filename) ∧
    (∀ s1 : Sys, alookup s1.cache r.filename = none →
      (alookup s1.fs r.filename = none →
        (TempFileResource.cleanupR r s1).1.fs = s1.fs ∧
        (TempFileResource.cleanupR r s1).2 = none) ∧
      (∀ i, alookup s1.fs r.filename = some i →
        alookup (TempFileResource.cleanupR r s1).1.fs r.filename = none ∧
        (TempFileResource.cleanupR r s1).2 = none)) ∧
    (∀ i, alookup s.fs r.filename = some i →
      (TempFileResource.touchR r s).2 = none ∧
      (TempFileResource.cleanupR r (TempFileResource.touchR r s).1).2 = none ∧
      (TempFileResource.existsQ r
        (TempFileResource.cleanupR r (TempFileResource.touchR r s).1).1).1 = false ∧
      (TempFileResource.createtimeQ r
        (TempFileResource.cleanupR r (TempFileResource.touchR r s).1).1).1 = some s.clock ∧
      alookup (TempFileResource.cleanupR r (TempFileResource.touchR r s).1).1.fs
          r.placeholder_filename = some ⟨s.clock, .pystr ""⟩) ∧
    (alookup s.fs r.filename = none →
      (TempFileResource.touchR r s).2 = none ∧
      (TempFileResource.cleanupR r (TempFileResource.touchR r s).1).2 = none ∧
      (TempFileResource.existsQ r
        (TempFileResource.cleanupR r (TempFileResource.touchR r s).1).1).1 = false ∧
      (TempFileResource.createtimeQ r
        (TempFileResource.cleanupR r (TempFileResource.touchR r s).1).1).1 = some s.clock) ∧
    (∀ iw, alookup s.fs wf = some iw → wf ≠ r.filename → wf ≠ r.placeholder_filename →
      (TempFileResource.finalizeR r wf s).2 = none ∧
      (TempFileResource.cleanupR r (TempFileResource.finalizeR r wf s).1).2 = none ∧
      (TempFileResource.existsQ r
        (TempFileResource.cleanupR r (TempFileResource.finalizeR r wf s).1).1).1 = false ∧
      (TempFileResource.createtimeQ r
        (TempFileResource.cleanupR r (TempFileResource.finalizeR r wf s).1).1).1
        = some iw.mtime) := by
  have hne : r.placeholder_filename ≠ r.filename := by
    rw [hr]; exact str_append_ne r.filename "._placeholder" (by decide)
  have hne2 : ¬ r.filename = r.placeholder_filename := fun h => hne h.symm
  refine ⟨?_, ?_, ?_, ?_, ?_⟩
  · intro s1
    cases hcache : alookup s1.cache r.filename with
    | none =>
        cases hfs : alookup s1.fs r.filename <;>
          simp [TempFileResource.cleanupR, TempFileResource.existsQ, get_exists, statPath,
            os_remove, hcache, hfs, alookup_aerase, hne2]
    | some e =>
        cases e with
        | none =>
            simp [TempFileResource.cleanupR, TempFileResource.existsQ, get_exists, statPath,
              hcache]
        | some j =>
            cases hfs : alookup s1.fs r.filename <;>
              simp [TempFileResource.cleanupR, TempFileResource.existsQ, get_exists, statPath,
                os_remove, hcache, hfs, alookup_aerase, hne2]
  · intro s1 hc1
    constructor
    · intro hfs
      constructor <;>
        simp [TempFileResource.cleanupR, TempFileResource.existsQ, get_exists, statPath,
          os_remove, hc1, hfs]
    · intro i hfs
      constructor <;>
        simp [TempFileResource.cleanupR, TempFileResource.existsQ, get_exists, statPath,
          os_remove, hc1, hfs, alookup_aerase]
  · intro i hf
    refine ⟨?_, ?_, ?_, ?_, ?_⟩ <;>
      simp [TempFileResource.touchR, TempFileResource.save_createtime, TempFileResource.cleanupR,
        TempFileResource.existsQ, TempFileResource.createtimeQ, get_exists, get_createtime,
        statPath, os_remove, shutil_copystat, helpers_touch, hcf, hf,
        alookup_ainsert, alookup_aerase, hne, hne2]
  · intro hf
    refine ⟨?_, ?_, ?_, ?_⟩ <;>
      cases hph : alookup s.fs r.placeholder_filename <;>
        simp [TempFileResource.touchR, TempFileResource.save_createtime,
          TempFileResource.cleanupR, TempFileResource.existsQ, TempFileResource.createtimeQ,
          get_exists, get_createtime, statPath, os_remove, shutil_copystat, helpers_touch,
          hcf, hf, hph, alookup_ainsert, alookup_aerase, hne, hne2]
  · intro iw hw hw1 hw2
    have hw1n : ¬ wf = r.filename := hw1
    have hw2n : ¬ wf = r.placeholder_filename := hw2
    refine ⟨?_, ?_, ?_, ?_⟩ <;>
      simp [TempFileResource.finalizeR, TempFileResource.save_createtime,
        TempFileResource.cleanupR, TempFileResource.existsQ, TempFileResource.createtimeQ,
        get_exists, get_createtime, statPath, os_rename, os_remove, shutil_copystat,
        helpers_touch, hcf, hw, hw1n, hw2n, alookup_ainsert, alookup_aerase, hne, hne2]

/-- C3 (witness): primary present at time 4, clock 10 — after touch then
cleanup, the resource does not exist but createtime is 10, the placeholder's
stamped time. -/
theorem c3_tempfile_cleanup_witness :
    (TempFileResource.existsQ ⟨"n", [], "f", "f._placeholder"⟩
       (TempFileResource.cleanupR ⟨"n", [], "f", "f._placeholder"⟩
         (TempFileResource.touchR ⟨"n", [], "f", "f._placeholder"⟩
           ⟨[("f", ⟨4, .pystr "x"⟩)], [], 10⟩).1).1).1 = false ∧
    (TempFileResource.createtimeQ ⟨"n", [], "f", "f._placeholder"⟩
       (TempFileResource.cleanupR ⟨"n", [], "f", "f._placeholder"⟩
         (TempFileResource.touchR ⟨"n", [], "f", "f._placeholder"⟩
           ⟨[("f", ⟨4, .pystr "x"⟩)], [], 10⟩).1).1).1 = some 10 := by
  obtain ⟨h1, h2, h3, h4, h5⟩ := (c3_tempfile_cleanup ⟨"n", [], "f", "f._placeholder"⟩ "w"
    ⟨[("f", ⟨4, .pystr "x"⟩)], [], 10⟩ rfl rfl).2.2.1 ⟨4, .pystr "x"⟩ rfl
  exact ⟨h3, h4⟩

end Pypeliner
